import Mathlib

/-!
Verification development for the PhysicsFS Windows platform backend
(`src/platform/windows.c`).  The definitions below are shallow embeddings of
the C functions: strings are `List Char` (the C nul terminator is the end of
the list), machine integers are `Nat`/`Int` with explicit `% 2^w` where
overflow matters, and host calls (CreateFile, SetFilePointer, ReadFile,
GetCurrentDirectory, GetFileAttributes, GetTimeZoneInformation) appear as
explicit parameters describing the host's answers.
-/

namespace Physfs

/-! ## Path canonicalizer: `__PHYSFS_platformRealPath` (windows.c:532-650) -/

/-- Embeds the C `strstr(p, "\\.")` scan of `__PHYSFS_platformRealPath`:
returns the least absolute index `j` of a backslash-dot pair in the list,
where indexing starts at `start` (the argument list is the suffix of the path
beginning at `start`).  `none` when no such pair exists before the
terminator. -/
def findDotSep : List Char → Nat → Option Nat
  | [], _ => none
  | c :: rest, start =>
    if c = '\\' ∧ rest.head? = some '.' then some start
    else findDotSep rest (start + 1)

/-- Embeds the `prevEntry` walk of the `".."` branch (windows.c:621-623):
starting at index `k` (the C code starts at `p - 1`), walk backwards while
the current index is not `0` (`prevEntry != retval`) and the character there
is not a backslash.  Returns the index where the walk stops; index `0` is
returned without looking at its character, exactly as in the C loop. -/
def prevSep (s : List Char) : Nat → Nat
  | 0 => 0
  | k + 1 => if s.get? (k + 1) = some '\\' then k + 1 else prevSep s k

/-- Embeds the dot-removal `while` loop of `__PHYSFS_platformRealPath`
(windows.c:607-642).  `s` is the buffer contents up to the nul terminator and
`i` is the offset of the scan pointer `p`; `fuel` bounds the number of loop
iterations (each iteration strictly decreases `s.length - i`, so the
`s.length + 1` supplied by `platformRealPath` is always sufficient — see
`dotScanF_fuel_irrelevant`).  Branches, in the C order:
* `p[2] == '\\'`  — a `"."` entry inside the string: `memmove(p+1, p+3, …)`,
  `p` unchanged;
* `p[2] == '\0'`  — a `"."` entry ending the string: `p[0] = '\0'`;
* `p[2] == '.'`   — a `".."` entry: walk back to `prevEntry`; if the walk
  reached the start of the buffer, degrade `".."` to `"."`
  (`memmove(p+1, p+2, …)`); otherwise if `p[3] != '\0'` truncate the buffer
  at `prevEntry` (`*prevEntry = '\0'`) and set `p = prevEntry`, else
  `memmove(prevEntry+1, p+4, strlen(p+4)+1)` and set `p = prevEntry` — in C
  `p + 4` there points one past the terminator, so `strlen(p + 4)` reads
  memory past the end of the string; the model takes those bytes to be empty
  (`List.drop` past the end behaves as a zero-filled buffer would);
* otherwise        — `p++`. -/
def dotScanF : Nat → List Char → Nat → List Char
  | 0, s, _ => s
  | fuel + 1, s, i =>
    match findDotSep (s.drop i) i with
    | none => s
    | some j =>
      if s.get? (j + 2) = some '\\' then
        dotScanF fuel (s.take (j + 1) ++ s.drop (j + 3)) j
      else if s.get? (j + 2) = none then
        dotScanF fuel (s.take j) j
      else if s.get? (j + 2) = some '.' then
        if prevSep s (j - 1) = 0 then
          dotScanF fuel (s.take (j + 1) ++ s.drop (j + 2)) j
        else if j + 3 < s.length then
          dotScanF fuel (s.take (prevSep s (j - 1))) (prevSep s (j - 1))
        else
          dotScanF fuel (s.take (prevSep s (j - 1) + 1) ++ s.drop (j + 4))
            (prevSep s (j - 1))
      else
        dotScanF fuel s (j + 1)

/-- Embeds the splice phase of `__PHYSFS_platformRealPath`
(windows.c:544-603), with the result of `__PHYSFS_platformCurrentDir()`
passed in as `cwd`.  Branches, in the C order: `\\server\path` network
roots are copied verbatim; a path with a drive designator is copied
verbatim when a separator follows the colon, spliced onto `cwd` when the
designated drive is the current drive, and synthesized as
`"<drive>:\<remainder>"` otherwise; a separator-rooted path is prefixed
with `cwd`'s drive designator; everything else is appended to `cwd`. -/
def splicePath (path cwd : List Char) : List Char :=
  if path.get? 0 = some '\\' ∧ path.get? 1 = some '\\' then
    path
  else if path.get? 1 = some ':' then
    if path.get? 2 = some '\\' then
      path
    else if path.get? 0 = cwd.get? 0 then
      cwd ++ path.drop 2
    else
      path.take 1 ++ [':', '\\'] ++ path.drop 2
  else if path.get? 0 = some '\\' then
    cwd.take 1 ++ [':'] ++ path
  else
    cwd ++ path

/-- Embeds `__PHYSFS_platformRealPath(path)` (windows.c:532-650), with the
current directory passed in as `cwd`.  Returns `none` exactly when the C
function bails with `ERR_INVALID_ARGUMENT` (NULL or empty path; allocation
is modelled as always succeeding): first the splice phase, then the
dot-removal scan. -/
def platformRealPath (path cwd : List Char) : Option (List Char) :=
  if path = [] then none
  else
    some (dotScanF ((splicePath path cwd).length + 1) (splicePath path cwd) 0)

/-! ## Current directory: `__PHYSFS_platformCurrentDir` (windows.c:512-528) -/

/-- Embeds `__PHYSFS_platformCurrentDir`, with the string produced by the
host's `GetCurrentDirectory` passed in as `hostCwd`.  `buflen` is
`hostCwd.length + 1` (the host reports the required size including the
terminator), so `retval[buflen - 2]` is the last character of `hostCwd`;
when it is not a backslash the code appends one (`strcat(retval, "\\")`). -/
def platformCurrentDir (hostCwd : List Char) : List Char :=
  if hostCwd.get? (hostCwd.length - 1) = some '\\' then hostCwd
  else hostCwd ++ ['\\']

/-! ## File handles -/

/-- The `win32file` struct (windows.c:49-53): a native handle plus the
read-only flag, together with the heap address of the struct itself (the
`void *` the open functions return), used to track allocation lifetime. -/
structure Win32File where
  ptr : Nat
  handle : Nat
  readonly : Bool
deriving DecidableEq

/-- Process state visible to the file-handle functions: which native
descriptors are open and which heap blocks (handle structs) are live. -/
structure SysState where
  openHandles : List Nat
  allocs : List Nat
deriving DecidableEq

/-- `CloseHandle`: the descriptor is removed from the open set. -/
def closeHandle (st : SysState) (h : Nat) : SysState :=
  { st with openHandles := st.openHandles.erase h }

/-- `allocator.Free`: the heap block is removed from the live set. -/
def freeAlloc (st : SysState) (p : Nat) : SysState :=
  { st with allocs := st.allocs.erase p }

/-- Embeds `doOpen` (windows.c:712-737).  `createOK` says whether the host's
`CreateFile` succeeds (returning fresh descriptor `h`), `mallocOK` whether
`allocator.Malloc` succeeds (returning heap address `p`).  On a failed
malloc the freshly opened descriptor is closed before bailing. -/
def doOpen (st : SysState) (createOK : Bool) (h : Nat) (mallocOK : Bool)
    (p : Nat) (rdonly : Bool) : SysState × Option Win32File :=
  if !createOK then (st, none)
  else
    let st1 : SysState := { st with openHandles := h :: st.openHandles }
    if !mallocOK then (closeHandle st1 h, none)
    else ({ st1 with allocs := p :: st1.allocs }, some ⟨p, h, rdonly⟩)

/-- Embeds `__PHYSFS_platformOpenAppend` (windows.c:752-769): `doOpen` with
`GENERIC_WRITE`/`OPEN_ALWAYS`, then `SetFilePointer(h, 0, NULL, FILE_END)`;
`seekOK` says whether that seek succeeds.  On seek failure the C code does
`CloseHandle(h); allocator.Free(retval); BAIL_MACRO(err, NULL)`. -/
def platformOpenAppend (st : SysState) (createOK : Bool) (h : Nat)
    (mallocOK : Bool) (p : Nat) (seekOK : Bool) :
    SysState × Option Win32File :=
  match doOpen st createOK h mallocOK p false with
  | (st1, none) => (st1, none)
  | (st1, some f) =>
    if seekOK then (st1, some f)
    else (freeAlloc (closeHandle st1 f.handle) f.ptr, none)

/-- Embeds `__PHYSFS_platformRead` (windows.c:772-793).  `readOK` is the
result of the host's `ReadFile` (which was asked for `count * size` bytes
and deposited `bytesRead` bytes); on success the function returns
`bytesRead / size` (truncating `DWORD` division), on failure `-1`.
`count` shapes only the host request, not the returned value. -/
def platformRead (readOK : Bool) (bytesRead size count : Nat) : Int :=
  if !readOK then -1
  else ((bytesRead / size : Nat) : Int)

/-- Embeds `__PHYSFS_platformEOF` (windows.c:907-920) over the abstract
handle state: `pos` is what `__PHYSFS_platformTell` returns and `len` what
`__PHYSFS_platformFileLength` returns.  The C code initializes `retval = 0`
and only compares position with length when the position is non-zero. -/
def platformEOF (pos len : Int) : Bool :=
  if pos ≠ 0 then decide (pos = len) else false

/-! ## Delete: `__PHYSFS_platformDelete` (windows.c:942-957) -/

/-- `FILE_ATTRIBUTE_DIRECTORY` from the Windows headers. -/
def FILE_ATTRIBUTE_DIRECTORY : Nat := 16

/-- Which host removal primitive `__PHYSFS_platformDelete` invokes. -/
inductive RemovalPrimitive
  | removeDirectory
  | deleteFile
deriving DecidableEq

/-- Embeds the dispatch of `__PHYSFS_platformDelete` (windows.c:942-957):
`attrs` is the value returned by `GetFileAttributes(path)`.  The C code
tests `GetFileAttributes(path) == FILE_ATTRIBUTE_DIRECTORY` — equality with
the whole attribute word, not a test of the directory bit. -/
def platformDeleteDispatch (attrs : Nat) : RemovalPrimitive :=
  if attrs = FILE_ATTRIBUTE_DIRECTORY then RemovalPrimitive.removeDirectory
  else RemovalPrimitive.deleteFile

/-! ## Timestamp normalizer fallback: `FileTimeToPhysfsTime`
    (windows.c:989-1064, manual-bias path at 1003-1047) -/

/-- Two's-complement wrap into a signed 32-bit value, modelling the C `LONG`
field `tzi.Bias` after `tzi.Bias += tzi.StandardBias` (or `DaylightBias`). -/
def wrap32 (x : Int) : Int :=
  (x + 2 ^ 31) % 2 ^ 32 - 2 ^ 31

/-- Result of `GetTimeZoneInformation` as used by `FileTimeToPhysfsTime`:
`TIME_ZONE_ID_UNKNOWN`, `TIME_ZONE_ID_STANDARD` or `TIME_ZONE_ID_DAYLIGHT`
(`TIME_ZONE_ID_INVALID` bails out before the fallback path). -/
inductive TzId
  | unknown
  | standard
  | daylight
deriving DecidableEq

/-- Embeds the manual-bias fallback arithmetic of `FileTimeToPhysfsTime`
(windows.c:1006-1042), taken when `SystemTimeToTzSpecificLocalTime` fails:
`raw` is the 64-bit `FILETIME` value (`ui64.QuadPart`, unsigned, in 100 ns
units), `bias`/`stdBias`/`dayBias` are the `LONG` minute fields of
`TIME_ZONE_INFORMATION`, and `tzid` selects which bias is folded in.  The C
computes `tzi.Bias += …` in 32-bit signed arithmetic and then
`ui64.QuadPart -= ((LONGLONG) tzi.Bias) * 600000000` in 64-bit unsigned
arithmetic; the result is the adjusted `FILETIME` handed on to
`FileTimeToSystemTime`. -/
def adjustedFileTime (raw : Nat) (bias stdBias dayBias : Int)
    (tzid : TzId) : Nat :=
  let totalBias : Int :=
    match tzid with
    | TzId.standard => wrap32 (bias + stdBias)
    | TzId.daylight => wrap32 (bias + dayBias)
    | TzId.unknown => bias
  (((raw : Int) - totalBias * 600000000) % 2 ^ 64).toNat

/-! ## Helper lemmas -/

/-- `findDotSep` only reports positions at or after its start index, and a
reported pair lies inside the scanned suffix. -/
lemma findDotSep_some : ∀ (l : List Char) (i j : Nat),
    findDotSep l i = some j → i ≤ j ∧ j + 2 ≤ i + l.length := by
  intro l
  induction l with
  | nil => intro i j h; simp [findDotSep] at h
  | cons c rest ih =>
    intro i j h
    rw [findDotSep] at h
    split at h
    · rename_i hc
      obtain ⟨-, hh⟩ := hc
      cases h
      refine ⟨le_refl _, ?_⟩
      have hrest : rest ≠ [] := by
        intro he; subst he; simp at hh
      have : 1 ≤ rest.length := by
        cases rest with
        | nil => exact absurd rfl hrest
        | cons a t => simp
      simp only [List.length_cons]
      omega
    · obtain ⟨h1, h2⟩ := ih (i + 1) j h
      simp only [List.length_cons]
      omega

/-- The backwards `prevEntry` walk never moves forward. -/
lemma prevSep_le (s : List Char) : ∀ m, prevSep s m ≤ m := by
  intro m
  induction m with
  | zero => simp [prevSep]
  | succ k ih =>
    rw [prevSep]
    split
    · exact le_refl _
    · exact ih.trans (Nat.le_succ k)

/-- Every iteration of the dot-removal loop strictly decreases
`s.length - i`, so any fuel above that measure computes the same result:
the fuel `s.length + 1` used by `platformRealPath` is always sufficient,
and `dotScanF` is a faithful rendering of the (terminating) C `while`
loop. -/
lemma dotScanF_fuel_irrelevant (fuel₁ : Nat) :
    ∀ (fuel₂ : Nat) (s : List Char) (i : Nat),
      s.length - i < fuel₁ → s.length - i < fuel₂ →
      dotScanF fuel₁ s i = dotScanF fuel₂ s i := by
  induction fuel₁ with
  | zero => intro fuel₂ s i h1 _; omega
  | succ n ih =>
    intro fuel₂ s i h1 h2
    cases fuel₂ with
    | zero => omega
    | succ m =>
      rw [dotScanF, dotScanF]
      cases hfind : findDotSep (s.drop i) i with
      | none => rfl
      | some j =>
        dsimp only
        obtain ⟨hij, hjlen⟩ := findDotSep_some _ _ _ hfind
        rw [List.length_drop] at hjlen
        by_cases hbs : s.get? (j + 2) = some '\\'
        · rw [if_pos hbs, if_pos hbs]
          have hj2 : j + 2 < s.length := by
            by_contra hcon
            rw [List.get?_eq_none.mpr (by omega)] at hbs
            exact Option.noConfusion hbs
          apply ih
          · simp only [List.length_append, List.length_take,
              List.length_drop]
            omega
          · simp only [List.length_append, List.length_take,
              List.length_drop]
            omega
        · rw [if_neg hbs, if_neg hbs]
          by_cases hend : s.get? (j + 2) = none
          · rw [if_pos hend, if_pos hend]
            have hj2 : s.length ≤ j + 2 := by
              by_contra hcon
              rcases List.get?_eq_get (by omega : j + 2 < s.length) with hg
              rw [hg] at hend
              exact Option.noConfusion hend
            apply ih
            · simp only [List.length_take]; omega
            · simp only [List.length_take]; omega
          · rw [if_neg hend, if_neg hend]
            have hj2 : j + 2 < s.length := by
              by_contra hcon
              rw [List.get?_eq_none.mpr (by omega)] at hend
              exact hend rfl
            by_cases hdot : s.get? (j + 2) = some '.'
            · rw [if_pos hdot, if_pos hdot]
              have hkle : prevSep s (j - 1) ≤ j - 1 := prevSep_le s (j - 1)
              by_cases hk0 : prevSep s (j - 1) = 0
              · rw [if_pos hk0, if_pos hk0]
                apply ih
                · simp only [List.length_append, List.length_take,
                    List.length_drop]
                  omega
                · simp only [List.length_append, List.length_take,
                    List.length_drop]
                  omega
              · rw [if_neg hk0, if_neg hk0]
                by_cases hmid : j + 3 < s.length
                · rw [if_pos hmid, if_pos hmid]
                  apply ih
                  · simp only [List.length_take]; omega
                  · simp only [List.length_take]; omega
                · rw [if_neg hmid, if_neg hmid]
                  apply ih
                  · simp only [List.length_append, List.length_take,
                      List.length_drop]
                    omega
                  · simp only [List.length_append, List.length_take,
                      List.length_drop]
                    omega
            · rw [if_neg hdot, if_neg hdot]
              apply ih
              · omega
              · omega

/-- 32-bit two's-complement wrapping is the identity on in-range values. -/
lemma wrap32_eq_self {x : Int} (h1 : -2 ^ 31 ≤ x) (h2 : x < 2 ^ 31) :
    wrap32 x = x := by
  have e1 : (2 : Int) ^ 31 = 2147483648 := by norm_num
  have e2 : (2 : Int) ^ 32 = 4294967296 := by norm_num
  rw [wrap32, e1, e2]
  rw [e1] at h1 h2
  rw [Int.emod_eq_of_lt (by omega) (by omega)]
  omega

/-! ## Claim theorems -/

/-- Claim C1 (code bug): the spec demands `eof(handle) = true` iff the
current offset equals the file length, and in particular `eof = true` for a
freshly opened zero-length file (offset 0, length 0).  The code instead
guards the comparison with `Tell(opaque) != 0` (windows.c:913), so at
offset 0 it never compares against the length and reports `false` even when
length is 0: the first conjunct evaluates the code at the failing input
(offset 0 = length 0, yet eof is `false`); the remaining conjuncts show the
comparison does fire at non-zero offsets, isolating the slip to the
zero-offset guard. -/
theorem C1_eof_zero_length_file_bug :
    platformEOF 0 0 = false ∧ platformEOF 2 2 = true ∧
      platformEOF 0 5 = false := by
  decide

/-- Claim C2 counterexample: canonicalizing `"C:\.."` does not yield
`"C:\"`.  The `".."` at the drive root is degraded to `"."` (windows.c:626),
and that trailing `"."` is then truncated together with its separator
(windows.c:615-616), leaving the bare drive designator `"C:"`. -/
theorem C2_root_parent_cex :
    platformRealPath "C:\\..".toList "C:\\u\\".toList = some "C:".toList ∧
      "C:".toList ≠ "C:\\".toList := by
  decide

/-- Claim C2 amended: canonicalizing `"C:\.."` succeeds for every current
directory and yields exactly `"C:"` — the `".."` is absorbed at the root
(never an error, never a path above the root), but the trailing-dot rule
also consumes the root separator, so the result is the drive designator
without a trailing separator. -/
theorem C2_root_parent_amended (cwd : List Char) :
    platformRealPath "C:\\..".toList cwd = some "C:".toList := by
  rfl

/-- Claim C3 (code bug): the spec demands that `"C:\a\.\b\..\c"`
canonicalize to `"C:\a\c"`, an interior `".."` popping exactly the segment
before it and preserving everything after it.  In the code the two bodies of
the interior/trailing `".."` cases are exchanged: an interior `".."`
executes `*prevEntry = '\0'` (windows.c:629-630), truncating the path at the
previous separator and silently discarding the entire tail (here `"\c"`),
so the result is `"C:\a"`. -/
theorem C3_interior_parent_truncation_bug :
    platformRealPath "C:\\a\\.\\b\\..\\c".toList "C:\\u\\".toList
        = some "C:\\a".toList ∧
      "C:\\a".toList ≠ "C:\\a\\c".toList := by
  decide

/-- Claim C4 counterexample: canonicalization is not idempotent.
`canonicalize("C:\..", cwd) = "C:"`, but the bare drive designator `"C:"`
re-canonicalizes as a drive-relative path and resolves to the current
directory `"C:\u\"`, not to `"C:"`. -/
theorem C4_idempotence_cex :
    platformRealPath "C:\\..".toList "C:\\u\\".toList = some "C:".toList ∧
      platformRealPath "C:".toList "C:\\u\\".toList
        = some "C:\\u\\".toList ∧
      "C:\\u\\".toList ≠ "C:".toList := by
  decide

/-- Claim C4 amended: idempotence fails in general (see
`C4_idempotence_cex`: a canonical form such as `"C:"` re-resolves against
the current directory), but holds for every canonicalizer output that keeps
an absolute prefix — a drive designator followed by a separator, or a
network double-separator root — and contains no remaining separator-dot
pair: re-canonicalizing such an output returns it unchanged. -/
theorem C4_idempotence_amended (p cwd q : List Char)
    (hq : platformRealPath p cwd = some q)
    (habs : (q.get? 1 = some ':' ∧ q.get? 2 = some '\\') ∨
      (q.get? 0 = some '\\' ∧ q.get? 1 = some '\\'))
    (hnd : findDotSep q 0 = none) :
    platformRealPath q cwd = some q := by
  have hne : q ≠ [] := by
    rcases habs with ⟨h1, -⟩ | ⟨h1, -⟩ <;> (intro he; subst he; simp at h1)
  have hsp : splicePath q cwd = q := by
    rcases habs with ⟨h1, h2⟩ | ⟨h1, h2⟩
    · have hunc : ¬(q.get? 0 = some '\\' ∧ q.get? 1 = some '\\') := by
        rintro ⟨-, hq1⟩
        rw [h1] at hq1
        exact absurd hq1 (by decide)
      rw [splicePath, if_neg hunc, if_pos h1, if_pos h2]
    · rw [splicePath, if_pos ⟨h1, h2⟩]
  rw [platformRealPath, if_neg hne, hsp]
  rw [dotScanF]
  rw [List.drop_zero, hnd]

/-- Witness for `C4_idempotence_amended` at a concrete input: the
drive-relative path `"C:a\b"` canonicalizes (against cwd `"C:\u\"`) to
`"C:\u\a\b"`, and re-canonicalizing that output returns it unchanged. -/
theorem C4_idempotence_amended_witness :
    platformRealPath "C:\\u\\a\\b".toList "C:\\u\\".toList
      = some "C:\\u\\a\\b".toList :=
  C4_idempotence_amended "C:a\\b".toList "C:\\u\\".toList
    "C:\\u\\a\\b".toList (by decide) (by decide) (by decide)

/-- Claim C5 (confirmed): drive-relative resolution with current directory
`"C:\Users\x\"`: `"C:foo"` (drive designator matching the current drive, no
separator after the colon) resolves by splicing the cwd with the remainder,
yielding `"C:\Users\x\foo"` (windows.c:571-575), while `"D:foo"` (different
drive) synthesizes `"D:\foo"` (windows.c:577-583). -/
theorem C5_drive_relative_resolution :
    platformRealPath "C:foo".toList "C:\\Users\\x\\".toList
        = some "C:\\Users\\x\\foo".toList ∧
      platformRealPath "D:foo".toList "C:\\Users\\x\\".toList
        = some "D:\\foo".toList := by
  decide

/-- Claim C6 (confirmed): when `CreateFile` and the handle allocation
succeed but the seek-to-end fails, `__PHYSFS_platformOpenAppend` closes the
native descriptor and frees the handle struct before surfacing the error
(windows.c:760-765): the operation returns the failure indicator `none` and
the process state is exactly what it was before the call — no descriptor and
no allocation leaks. -/
theorem C6_append_seek_failure_no_leak (st : SysState) (h p : Nat) :
    platformOpenAppend st true h true p false = (st, none) := by
  simp [platformOpenAppend, doOpen, closeHandle, freeAlloc]

/-- Claim C7 counterexample: the delete dispatch does not depend only on
the directory attribute bit.  For attribute word `18`
(`FILE_ATTRIBUTE_DIRECTORY ||| FILE_ATTRIBUTE_HIDDEN`) the directory bit is
set, yet the code — which compares the whole word for equality with
`FILE_ATTRIBUTE_DIRECTORY` (windows.c:945) — invokes the file-removal
primitive `DeleteFile`, not `RemoveDirectory`. -/
theorem C7_delete_dispatch_cex :
    platformDeleteDispatch 18 = RemovalPrimitive.deleteFile ∧
      18 &&& FILE_ATTRIBUTE_DIRECTORY = 16 := by
  decide

/-- Claim C7 amended: `delete(path)` invokes the directory-removal
primitive exactly when the host's whole attribute word equals
`FILE_ATTRIBUTE_DIRECTORY` (16); any other value — including a directory
with additional attribute bits set — takes the file-removal primitive. -/
theorem C7_delete_dispatch_amended (attrs : Nat) :
    platformDeleteDispatch attrs = RemovalPrimitive.removeDirectory ↔
      attrs = FILE_ATTRIBUTE_DIRECTORY := by
  rw [platformDeleteDispatch]
  split
  · rename_i heq
    simp [heq]
  · rename_i hne
    simp [hne]

/-- Claim C8 (confirmed): on a successful transfer of `bytesRead` bytes
with element size `size > 0`, `__PHYSFS_platformRead` reports
`bytesRead / size` whole elements — the truncated quotient
(`size * reported ≤ bytesRead < size * (reported + 1)`), discarding any
partial trailing element, and never more than the `count` elements
requested. -/
theorem C8_read_whole_element_truncation (bytesRead size count : Nat)
    (hsize : 0 < size) (hle : bytesRead ≤ size * count) :
    platformRead true bytesRead size count = ((bytesRead / size : Nat) : Int) ∧
      size * (bytesRead / size) ≤ bytesRead ∧
      bytesRead < size * (bytesRead / size + 1) ∧
      bytesRead / size ≤ count := by
  refine ⟨rfl, ?_, ?_, ?_⟩
  · have := Nat.div_add_mod bytesRead size
    omega
  · have h1 := Nat.div_add_mod bytesRead size
    have h2 := Nat.mod_lt bytesRead hsize
    have : size * (bytesRead / size + 1)
        = size * (bytesRead / size) + size := by ring
    omega
  · have h3 : bytesRead / size ≤ size * count / size :=
      Nat.div_le_div_right hle
    rwa [Nat.mul_div_cancel_left count hsize] at h3

/-- Witness for `C8_read_whole_element_truncation`: the spec's own example —
a request of 4 elements of size 8 answered by a 30-byte transfer reports
3 whole elements (24 ≤ 30 < 32), the partial fourth element discarded. -/
theorem C8_read_whole_element_truncation_witness :
    platformRead true 30 8 4 = ((30 / 8 : Nat) : Int) ∧
      8 * (30 / 8) ≤ 30 ∧ 30 < 8 * (30 / 8 + 1) ∧ 30 / 8 ≤ 4 :=
  C8_read_whole_element_truncation 30 8 4 (by decide) (by decide)

/-- Claim C9 (confirmed): the fallback path of `FileTimeToPhysfsTime`
adjusts the raw 64-bit file-time by exactly `totalBias * 600000000` units of
100 ns in 64-bit arithmetic (reduced modulo `2^64`), where `totalBias` is
the base bias plus the standard bias when the standard regime is active,
the base bias plus the daylight bias when the daylight regime is active,
and the base bias alone otherwise.  The range hypotheses say the summed
bias fits a 32-bit `LONG`, so the C's 32-bit accumulation does not wrap
(real `TIME_ZONE_INFORMATION` biases are several orders of magnitude
inside these bounds). -/
theorem C9_fallback_bias_arithmetic (raw : Nat) (bias stdBias dayBias : Int)
    (hs1 : -2 ^ 31 ≤ bias + stdBias) (hs2 : bias + stdBias < 2 ^ 31)
    (hd1 : -2 ^ 31 ≤ bias + dayBias) (hd2 : bias + dayBias < 2 ^ 31) :
    adjustedFileTime raw bias stdBias dayBias TzId.standard
        = ((((raw : Nat) : Int) - (bias + stdBias) * 600000000) % 2 ^ 64).toNat ∧
      adjustedFileTime raw bias stdBias dayBias TzId.daylight
        = ((((raw : Nat) : Int) - (bias + dayBias) * 600000000) % 2 ^ 64).toNat ∧
      adjustedFileTime raw bias stdBias dayBias TzId.unknown
        = ((((raw : Nat) : Int) - bias * 600000000) % 2 ^ 64).toNat := by
  refine ⟨?_, ?_, rfl⟩
  · show (((raw : Int) - wrap32 (bias + stdBias) * 600000000) % 2 ^ 64).toNat
      = (((raw : Int) - (bias + stdBias) * 600000000) % 2 ^ 64).toNat
    rw [wrap32_eq_self hs1 hs2]
  · show (((raw : Int) - wrap32 (bias + dayBias) * 600000000) % 2 ^ 64).toNat
      = (((raw : Int) - (bias + dayBias) * 600000000) % 2 ^ 64).toNat
    rw [wrap32_eq_self hd1 hd2]

/-- Witness for `C9_fallback_bias_arithmetic` at concrete values: a
UTC-plus-6-hours file-time with base bias 300, standard bias 60 and
daylight bias -60 minutes. -/
theorem C9_fallback_bias_arithmetic_witness :
    adjustedFileTime 131032684260000000 300 60 (-60) TzId.standard
        = ((((131032684260000000 : Nat) : Int) - (300 + 60) * 600000000)
            % 2 ^ 64).toNat ∧
      adjustedFileTime 131032684260000000 300 60 (-60) TzId.daylight
        = ((((131032684260000000 : Nat) : Int) - (300 + (-60)) * 600000000)
            % 2 ^ 64).toNat ∧
      adjustedFileTime 131032684260000000 300 60 (-60) TzId.unknown
        = ((((131032684260000000 : Nat) : Int) - 300 * 600000000)
            % 2 ^ 64).toNat :=
  C9_fallback_bias_arithmetic 131032684260000000 300 60 (-60)
    (by norm_num) (by norm_num) (by norm_num) (by norm_num)

/-- Claim C10 (confirmed): every string `__PHYSFS_platformCurrentDir`
returns ends with the native separator: when the host's reported working
directory lacks a trailing backslash, one is appended before the string is
returned (windows.c:524-525). -/
theorem C10_current_dir_trailing_separator (hostCwd : List Char)
    (hne : hostCwd ≠ []) :
    (platformCurrentDir hostCwd).getLast? = some '\\' := by
  rw [platformCurrentDir]
  split
  · rename_i hlast
    rw [List.getLast?_eq_getElem?, ← List.get?_eq_getElem?]
    exact hlast
  · exact List.getLast?_concat _

/-- Witness for `C10_current_dir_trailing_separator`: the host reports
`"C:\Users"` (no trailing separator); the returned string ends with one. -/
theorem C10_current_dir_trailing_separator_witness :
    (platformCurrentDir "C:\\Users".toList).getLast? = some '\\' :=
  C10_current_dir_trailing_separator "C:\\Users".toList (by decide)

end Physfs
